import Mathlib

/-!
Verification of the LaserDL (TimeSeriesDL) configuration, registry and
auto-encoder core, shallowly embedded from the Python sources.

Embedding conventions:
* Python dicts with string keys are association lists; `lookupA` is
  `dict.get` / item read, `insertA` is item assignment (replace the first
  binding for the key, else append).
* Fallible Python code (raising KeyError/TypeError/RuntimeError) is embedded
  with `Except`.
* Python's `/` on ints is true division; it is embedded as division in `ℚ`.
* Tensors are a shape list plus flat (row-major) rational data; framework
  layers (convolutions, linear layers, `torch.exp`) are abstract function
  fields of the model structure, since they live in the external framework.
-/

/-- Python-level error conditions raised by the embedded code. -/
inductive PyErr where
  | keyError
  | typeError
deriving DecidableEq, Repr

/-- Numpy dtypes occurring in `Config._precisions`. -/
inductive NpDtype where
  | float16
  | float32
  | float64
  | uint8
deriving DecidableEq, Repr

/-- Torch dtypes occurring in `Config._precisions`. -/
inductive TorchDtype where
  | float16
  | float32
  | float64
  | uint8
deriving DecidableEq, Repr

/-- A YAML / config value: strings, ints, the two dtype kinds that
`_set_precision` injects, and nested mappings. -/
inductive Val where
  | vstr : String → Val
  | vint : Int → Val
  | vnp : NpDtype → Val
  | vtorch : TorchDtype → Val
  | vdict : List (String × Val) → Val

/-- A configuration document: a Python dict with string keys. -/
abbrev Doc := List (String × Val)

/-- Dict read: first binding for the key, if any (`d.get(k)` / `k in d`). -/
def lookupA {α : Type} (k : String) : List (String × α) → Option α
  | [] => none
  | (k', v) :: rest => if k' = k then some v else lookupA k rest

/-- Dict item assignment `d[k] = v`: replace the first binding for `k`,
else append a new binding. -/
def insertA {α : Type} (k : String) (v : α) : List (String × α) → List (String × α)
  | [] => [(k, v)]
  | (k', v') :: rest => if k' = k then (k', v) :: rest else (k', v') :: insertA k v rest

/-- `Config._precisions`: the fixed registry mapping precision names to a
(numpy dtype, torch dtype) pair.  Note `"int8"` maps to the unsigned dtypes,
exactly as in the source. -/
def Config.precisions : List (String × NpDtype × TorchDtype) :=
  [("float16", (NpDtype.float16, TorchDtype.float16)),
   ("float32", (NpDtype.float32, TorchDtype.float32)),
   ("float64", (NpDtype.float64, TorchDtype.float64)),
   ("int8", (NpDtype.uint8, TorchDtype.uint8))]

/-- `self._precisions.get(d["precision"], None)`: looking a value up in the
precision registry.  Non-string hashable values miss the table; a dict value
is unhashable and raises `TypeError` in Python. -/
def Config.precisionsGet (v : Val) : Except PyErr (Option (NpDtype × TorchDtype)) :=
  match v with
  | Val.vstr s => Except.ok (lookupA s Config.precisions)
  | Val.vdict _ => Except.error PyErr.typeError
  | _ => Except.ok none

/-- `d[outer][inner] = v`: fails with `KeyError` when `outer` is absent and
with `TypeError` when `d[outer]` is not a mapping. -/
def setItemNested (d : Doc) (outer inner : String) (v : Val) : Except PyErr Doc :=
  match lookupA outer d with
  | none => Except.error PyErr.keyError
  | some (Val.vdict m) => Except.ok (insertA outer (Val.vdict (insertA inner v m)) d)
  | some _ => Except.error PyErr.typeError

/-- `Config._set_precision`: if the root `precision` key is absent, or present
but does not resolve in the registry, the document passes through; otherwise
the torch dtype is written into `d["model"]["precision"]` and then the numpy
dtype into `d["dataset"]["precision"]`, in that order. -/
def Config._set_precision (d : Doc) : Except PyErr Doc :=
  match lookupA "precision" d with
  | none => Except.ok d
  | some v =>
    match Config.precisionsGet v with
    | Except.error e => Except.error e
    | Except.ok none => Except.ok d
    | Except.ok (some (npD, tD)) =>
      match setItemNested d "model" "precision" (Val.vtorch tD) with
      | Except.error e => Except.error e
      | Except.ok d1 => setItemNested d1 "dataset" "precision" (Val.vnp npD)

/-- `Config.get_args`: reads the YAML file and applies `_set_precision`.
File opening and YAML parsing are external effects, so the embedded function
takes the parsed document as input and applies the resolution step. -/
def Config.get_args (parsed : Doc) : Except PyErr Doc :=
  Config._set_precision parsed

/-- An opaque stand-in for a registered model class (`BaseModel` subclass).
Distinct ids model distinct class objects; a class object is always truthy. -/
structure ModelClass where
  id : Nat
deriving DecidableEq, Repr

/-- The model register: a Python dict from name to model class. -/
abbrev Registry := List (String × ModelClass)

/-- `Config.register_model`: unconditional dict assignment into the register. -/
def Config.register_model (name : String) (model_class : ModelClass) (reg : Registry) :
    Registry :=
  insertA name model_class reg

/-- `Config.get_model`: `.get(name, None)` followed by a truthiness check; a
missing name raises `RuntimeError` with the message from the source. -/
def Config.get_model (name : String) (reg : Registry) : Except String ModelClass :=
  match lookupA name reg with
  | none => Except.error ("Model of type " ++ name ++ " is not registered.")
  | some m => Except.ok m

/-- `ef_length` in `AE.__init__`: `((sequence_length - kernel_size + 2 * padding)
/ stride) + 1`, Python true division (no floor), embedded over `ℚ`. -/
def AE.ef_length (sequence_length kernel_size stride padding : ℤ) : ℚ :=
  (((sequence_length : ℚ) - kernel_size + 2 * padding) / stride) + 1

/-- `ls_length` in `AE.__init__`: the same formula applied again to `ef_length`. -/
def AE.ls_length (sequence_length kernel_size stride padding : ℤ) : ℚ :=
  ((AE.ef_length sequence_length kernel_size stride padding - kernel_size + 2 * padding)
      / stride) + 1

/-- Whether `AE.__init__` prints the shape warning: `ef_length > ls_length`. -/
def AE.warns (sequence_length kernel_size stride padding : ℤ) : Bool :=
  decide (AE.ls_length sequence_length kernel_size stride padding
    < AE.ef_length sequence_length kernel_size stride padding)

/-- The shape-relevant state `AE.__init__` stores on the instance. -/
structure AEShape where
  sequence_length : ℤ
  kernel_size : ℤ
  stride : ℤ
  padding : ℤ
deriving DecidableEq, Repr

/-- The shape-check portion of `AE.__init__`: computes both lengths, decides
the warning, and always completes, returning the constructed shape state and
whether the warning was printed (the check never raises). -/
def AE.construct (sequence_length kernel_size stride padding : ℤ) : AEShape × Bool :=
  (⟨sequence_length, kernel_size, stride, padding⟩,
   AE.warns sequence_length kernel_size stride padding)

/-- Per-parameter `requires_grad` flags of the AE's two sub-networks. -/
structure AEGrads where
  encoder : List Bool
  decoder : List Bool
deriving DecidableEq, Repr

/-- `AE.freeze(unfreeze)`: sets `requires_grad = not unfreeze` on every
encoder and decoder parameter. -/
def AE.freeze (unfreeze : Bool) (p : AEGrads) : AEGrads :=
  ⟨p.encoder.map (fun _ => !unfreeze), p.decoder.map (fun _ => !unfreeze)⟩

/-- Per-parameter `requires_grad` flags of the ConvVAE: the inherited
encoder/decoder plus the two latent projection layers. -/
structure VAEGrads where
  encoder : List Bool
  decoder : List Bool
  mean_layer : List Bool
  var_layer : List Bool
deriving DecidableEq, Repr

/-- Modelled from the spec: `ConvAE.freeze` (the superclass of `ConvVAE` is not
in the provided sources); the spec states it has the same contract as
`AE.freeze`, toggling `requires_grad` on all encoder and decoder parameters. -/
def ConvAE.freeze (unfreeze : Bool) (p : VAEGrads) : VAEGrads :=
  { p with
    encoder := p.encoder.map (fun _ => !unfreeze)
    decoder := p.decoder.map (fun _ => !unfreeze) }

/-- `ConvVAE.freeze(unfreeze)`: `super().freeze(unfreeze)` followed by setting
`requires_grad = not unfreeze` on the mean layer's and then the log-variance
layer's parameters. -/
def ConvVAE.freeze (unfreeze : Bool) (p : VAEGrads) : VAEGrads :=
  let p1 := ConvAE.freeze unfreeze p
  { p1 with
    mean_layer := p1.mean_layer.map (fun _ => !unfreeze)
    var_layer := p1.var_layer.map (fun _ => !unfreeze) }

/-- A tensor: a shape and flat row-major rational data. -/
structure Tensor where
  shape : List Nat
  data : List ℚ
deriving DecidableEq, Repr

/-- Number of elements described by a shape. -/
def prodShape (l : List Nat) : Nat := l.foldr (· * ·) 1

/-- Row-major flat index to multi-index for a shape. -/
def toMulti (shape : List Nat) (i : Nat) : List Nat :=
  match shape with
  | [] => []
  | _ :: ds => (i / prodShape ds) :: toMulti ds (i % prodShape ds)

/-- Multi-index back to the row-major flat index. -/
def fromMulti (shape idx : List Nat) : Nat :=
  match shape, idx with
  | _ :: ds, i :: is => i * prodShape ds + fromMulti ds is
  | _, _ => 0

/-- Swap positions `a` and `b` of a list (used for axes and multi-indices). -/
def listSwap (l : List Nat) (a b : Nat) : List Nat :=
  (List.range l.length).map (fun i =>
    if i = a then l.getD b 0 else if i = b then l.getD a 0 else l.getD i 0)

/-- `torch.swapaxes(t, a, b)`. -/
def Tensor.swapaxes (t : Tensor) (a b : Nat) : Tensor :=
  let newShape := listSwap t.shape a b
  { shape := newShape
    data := (List.range (prodShape newShape)).map (fun i =>
      t.data.getD (fromMulti t.shape (listSwap (toMulti newShape i) a b)) 0) }

/-- `t.view(shape)`: reinterpret the flat data under a new shape. -/
def Tensor.view (t : Tensor) (shape : List Nat) : Tensor :=
  { shape := shape, data := t.data }

/-- `torch.relu`, elementwise. -/
def Tensor.relu (t : Tensor) : Tensor :=
  { t with data := t.data.map (fun q => max 0 q) }

/-- Elementwise tensor addition (the operands have equal shapes at every
use site in the embedded code). -/
def Tensor.add (a b : Tensor) : Tensor :=
  { shape := a.shape, data := List.zipWith (· + ·) a.data b.data }

/-- Elementwise tensor multiplication. -/
def Tensor.mul (a b : Tensor) : Tensor :=
  { shape := a.shape, data := List.zipWith (· * ·) a.data b.data }

/-- Scalar multiplication `c * t`. -/
def Tensor.smul (c : ℚ) (t : Tensor) : Tensor :=
  { t with data := t.data.map (fun q => c * q) }

/-- `torch.exp`, elementwise, over an abstract scalar exponential supplied by
the external framework. -/
def Tensor.texp (f : ℚ → ℚ) (t : Tensor) : Tensor :=
  { t with data := t.data.map f }

/-- The ConvVAE's components.  The two encoder convolution stages, the two
latent projection layers and the inherited decoder (`ConvAE.decode`, whose
source is outside the provided excerpt) are learned framework layers, embedded
as abstract tensor functions; `expS` is the framework's scalar exponential
used by `torch.exp`. -/
structure ConvVAE where
  encoder_1 : Tensor → Tensor
  encoder_2 : Tensor → Tensor
  mean_layer : Tensor → Tensor
  var_layer : Tensor → Tensor
  decode : Tensor → Tensor
  expS : ℚ → ℚ

/-- `ConvVAE.reparameterization(mean, var)`: with the standard-normal draw
`epsilon` made explicit, computes `z = mean + var * epsilon`. -/
def ConvVAE.reparameterization (mean var epsilon : Tensor) : Tensor :=
  Tensor.add mean (Tensor.mul var epsilon)

/-- `ConvVAE._encode(x)`: two axis swaps, the two convolution stages each
followed by `relu`, flatten for the linear layers, then both projections
reshaped back to `(batch, channels, features, samples)`.  The Python shape
destructuring `batch, channels, features, samples = x.shape` fails unless the
shape has exactly four axes, hence the `Option`. -/
def ConvVAE._encode (M : ConvVAE) (x : Tensor) : Option (Tensor × Tensor) :=
  let x1 := (x.swapaxes 1 3).swapaxes 2 1
  let x2 := Tensor.relu (M.encoder_1 x1)
  let x3 := Tensor.relu (M.encoder_2 x2)
  match x3.shape with
  | [batch, channels, features, samples] =>
    let xf := x3.view [batch, features * samples * channels]
    some ((M.mean_layer xf).view [batch, channels, features, samples],
          (M.var_layer xf).view [batch, channels, features, samples])
  | _ => none

/-- `ConvVAE.encode(x)`: the public encoder, returning only the mean. -/
def ConvVAE.encode (M : ConvVAE) (x : Tensor) : Option Tensor :=
  (M._encode x).map Prod.fst

/-- `ConvVAE.forward(x)`: `(mean, log_var) = _encode(x)`, then
`z = reparameterization(mean, exp(0.5 * log_var))` (with the noise draw
`epsilon` explicit), then `decode(z)`. -/
def ConvVAE.forward (M : ConvVAE) (x epsilon : Tensor) : Option Tensor :=
  match M._encode x with
  | none => none
  | some (mean, log_var) =>
    some (M.decode (ConvVAE.reparameterization mean
      (Tensor.texp M.expS (Tensor.smul (1 / 2) log_var)) epsilon))

/-- A concrete parsed configuration document with a resolvable root
`precision`, a `model` section and a `dataset` section. -/
def docFloat32 : Doc :=
  [("precision", Val.vstr "float32"),
   ("model", Val.vdict [("hidden", Val.vint 8)]),
   ("dataset", Val.vdict [("path", Val.vstr "data.mat")])]

/-- A concrete parsed configuration document whose root `precision` is
`"int8"`. -/
def docInt8 : Doc :=
  [("precision", Val.vstr "int8"),
   ("model", Val.vdict []),
   ("dataset", Val.vdict [])]

/-- A concrete ConvVAE whose layers are identity maps and whose scalar
exponential is the identity, for evaluating the pipeline on concrete data. -/
def idVAE : ConvVAE :=
  { encoder_1 := id, encoder_2 := id, mean_layer := id, var_layer := id,
    decode := id, expS := id }

theorem lookupA_insertA_self {α : Type} (k : String) (v : α) (l : List (String × α)) :
    lookupA k (insertA k v l) = some v := by
  induction l with
  | nil => simp [insertA, lookupA]
  | cons hd tl ih =>
    obtain ⟨k', v'⟩ := hd
    by_cases h : k' = k
    · simp [insertA, lookupA, h]
    · simp [insertA, lookupA, h, ih]

theorem lookupA_insertA_ne {α : Type} (k k' : String) (v : α) (l : List (String × α))
    (h : k' ≠ k) : lookupA k (insertA k' v l) = lookupA k l := by
  induction l with
  | nil => simp [insertA, lookupA, h]
  | cons hd tl ih =>
    obtain ⟨k'', v''⟩ := hd
    by_cases h2 : k'' = k'
    · subst h2
      simp [insertA, lookupA, h]
    · simp only [insertA, if_neg h2]
      by_cases h3 : k'' = k
      · simp [lookupA, h3]
      · simp [lookupA, h3, ih]

/-- C2, counterexample: the constructor does not use the floored
output-size formula.  For kernel=5, stride=2, padding=0, sequence_length=10
the code computes `ef_length = 3.5` and `ls_length = 0.25` by true division,
not the claimed floored values 3 and 1. -/
theorem ae_lengths_not_floored :
    AE.ef_length 10 5 2 0 ≠ 3 ∧ AE.ls_length 10 5 2 0 ≠ 1 := by
  constructor <;> norm_num [AE.ef_length, AE.ls_length]

/-- C2, amended: the constructor computes `ef_length` and `ls_length` with
Python true division (no floor): for kernel=3, stride=1, padding=1,
sequence_length=10 both equal 10 and no warning is emitted; for kernel=5,
stride=2, padding=0, sequence_length=10 they are 3.5 and 0.25 and the
warning is emitted. -/
theorem ae_lengths_true_division :
    AE.ef_length 10 3 1 1 = 10 ∧ AE.ls_length 10 3 1 1 = 10 ∧
    AE.warns 10 3 1 1 = false ∧
    AE.ef_length 10 5 2 0 = 7 / 2 ∧ AE.ls_length 10 5 2 0 = 1 / 4 ∧
    AE.warns 10 5 2 0 = true := by
  refine ⟨?_, ?_, ?_, ?_, ?_, ?_⟩ <;>
    norm_num [AE.ef_length, AE.ls_length, AE.warns]

/-- C3: registering a model and looking it up returns exactly the registered
class, and a second registration under the same name unconditionally
overwrites the first. -/
theorem register_model_get_model (reg : Registry) (n : String) (C C2 : ModelClass) :
    Config.get_model n (Config.register_model n C reg) = Except.ok C ∧
    Config.get_model n (Config.register_model n C2 (Config.register_model n C reg)) =
      Except.ok C2 := by
  constructor <;>
    simp [Config.get_model, Config.register_model, lookupA_insertA_self]

/-- C6: looking up a name that is not in the register fails with the
`RuntimeError` message, and no model class is returned. -/
theorem get_model_unregistered (reg : Registry) (n : String)
    (h : lookupA n reg = none) :
    Config.get_model n reg =
      Except.error ("Model of type " ++ n ++ " is not registered.") := by
  simp [Config.get_model, h]

/-- C6, witness. -/
theorem get_model_unregistered_witness :
    Config.get_model "LSTM" [] =
      Except.error ("Model of type " ++ "LSTM" ++ " is not registered.") :=
  get_model_unregistered [] "LSTM" rfl

/-- C7: the AE constructor always completes, returning the constructed shape
state, and it prints the (non-fatal) warning exactly when
`ef_length > ls_length`. -/
theorem ae_construct_warning (L k s p : ℤ) :
    (AE.construct L k s p).1 = ⟨L, k, s, p⟩ ∧
    ((AE.construct L k s p).2 = true ↔ AE.ls_length L k s p < AE.ef_length L k s p) := by
  refine ⟨rfl, ?_⟩
  simp [AE.construct, AE.warns]

/-- C1: if the root `precision` resolves in the registry (and the document has
`model` and `dataset` sections, as every configuration document does), the
torch dtype is written into `model.precision` and the numpy dtype into
`dataset.precision`; if `precision` is absent, or present but unresolvable,
the document is returned unchanged. -/
theorem get_args_precision (d : Doc) :
    (∀ s nd td mSec dSec,
        lookupA "precision" d = some (Val.vstr s) →
        lookupA s Config.precisions = some (nd, td) →
        lookupA "model" d = some (Val.vdict mSec) →
        lookupA "dataset" d = some (Val.vdict dSec) →
        ∃ d' m' ds',
          Config.get_args d = Except.ok d' ∧
          lookupA "model" d' = some (Val.vdict m') ∧
          lookupA "precision" m' = some (Val.vtorch td) ∧
          lookupA "dataset" d' = some (Val.vdict ds') ∧
          lookupA "precision" ds' = some (Val.vnp nd)) ∧
    (lookupA "precision" d = none → Config.get_args d = Except.ok d) ∧
    (∀ v, lookupA "precision" d = some v →
        Config.precisionsGet v = Except.ok none →
        Config.get_args d = Except.ok d) := by
  refine ⟨?_, ?_, ?_⟩
  · intro s nd td mSec dSec hp hr hm hd
    have hne : ("model" : String) ≠ "dataset" := by decide
    have hne2 : ("dataset" : String) ≠ "model" := by decide
    have hd1 : lookupA "dataset"
        (insertA "model" (Val.vdict (insertA "precision" (Val.vtorch td) mSec)) d) =
        some (Val.vdict dSec) := by
      rw [lookupA_insertA_ne _ _ _ _ hne]; exact hd
    refine ⟨insertA "dataset" (Val.vdict (insertA "precision" (Val.vnp nd) dSec))
              (insertA "model" (Val.vdict (insertA "precision" (Val.vtorch td) mSec)) d),
            insertA "precision" (Val.vtorch td) mSec,
            insertA "precision" (Val.vnp nd) dSec, ?_, ?_, ?_, ?_, ?_⟩
    · simp only [Config.get_args, Config._set_precision, hp, Config.precisionsGet, hr,
        setItemNested, hm, hd1]
    · rw [lookupA_insertA_ne _ _ _ _ hne2, lookupA_insertA_self]
    · exact lookupA_insertA_self _ _ _
    · exact lookupA_insertA_self _ _ _
    · exact lookupA_insertA_self _ _ _
  · intro hp
    simp only [Config.get_args, Config._set_precision, hp]
  · intro v hp hr
    simp only [Config.get_args, Config._set_precision, hp, hr]

/-- C1, witness. -/
theorem get_args_precision_witness :
    ∃ d' m' ds',
      Config.get_args docFloat32 = Except.ok d' ∧
      lookupA "model" d' = some (Val.vdict m') ∧
      lookupA "precision" m' = some (Val.vtorch TorchDtype.float32) ∧
      lookupA "dataset" d' = some (Val.vdict ds') ∧
      lookupA "precision" ds' = some (Val.vnp NpDtype.float32) :=
  (get_args_precision docFloat32).1 "float32" NpDtype.float32 TorchDtype.float32
    [("hidden", Val.vint 8)] [("path", Val.vstr "data.mat")] rfl rfl rfl rfl

/-- C9: `"int8"` resolves to the unsigned 8-bit pair, and a document whose root
`precision` is `"int8"` ends up with `dataset.precision = numpy uint8` and
`model.precision = torch uint8`. -/
theorem int8_resolves_unsigned :
    Config.precisionsGet (Val.vstr "int8") =
      Except.ok (some (NpDtype.uint8, TorchDtype.uint8)) ∧
    Config.get_args docInt8 =
      Except.ok [("precision", Val.vstr "int8"),
                 ("model", Val.vdict [("precision", Val.vtorch TorchDtype.uint8)]),
                 ("dataset", Val.vdict [("precision", Val.vnp NpDtype.uint8)])] := by
  exact ⟨rfl, rfl⟩

/-- C10: when the root `precision` resolves but the document lacks the `model`
section, or has a `model` mapping but lacks the `dataset` section, `get_args`
fails with a key lookup error instead of returning the document. -/
theorem get_args_missing_sections (d : Doc) (v : Val) (nd : NpDtype) (td : TorchDtype)
    (hp : lookupA "precision" d = some v)
    (hr : Config.precisionsGet v = Except.ok (some (nd, td))) :
    (lookupA "model" d = none → Config.get_args d = Except.error PyErr.keyError) ∧
    (∀ mSec, lookupA "model" d = some (Val.vdict mSec) →
        lookupA "dataset" d = none →
        Config.get_args d = Except.error PyErr.keyError) := by
  constructor
  · intro hm
    simp only [Config.get_args, Config._set_precision, hp, hr, setItemNested, hm]
  · intro mSec hm hds
    have hne : ("model" : String) ≠ "dataset" := by decide
    have hd1 : lookupA "dataset"
        (insertA "model" (Val.vdict (insertA "precision" (Val.vtorch td) mSec)) d) =
        none := by
      rw [lookupA_insertA_ne _ _ _ _ hne]; exact hds
    simp only [Config.get_args, Config._set_precision, hp, hr, setItemNested, hm, hd1]

/-- C10, witness. -/
theorem get_args_missing_sections_witness :
    Config.get_args [("precision", Val.vstr "float16")] = Except.error PyErr.keyError :=
  (get_args_missing_sections [("precision", Val.vstr "float16")]
    (Val.vstr "float16") NpDtype.float16 TorchDtype.float16 rfl rfl).1 rfl

theorem zipWith_add_zero_mul (a b c : List ℚ)
    (hz : ∀ q ∈ b, q = 0) (hb : b.length = a.length) (hc : c.length = b.length) :
    List.zipWith (· + ·) a (List.zipWith (· * ·) b c) = a := by
  induction a generalizing b c with
  | nil => simp
  | cons x xs ih =>
    cases b with
    | nil => simp at hb
    | cons y ys =>
      cases c with
      | nil => simp at hc
      | cons z zs =>
        have hy : y = 0 := hz y (List.mem_cons_self _ _)
        simp only [List.zipWith_cons_cons, hy, zero_mul, add_zero, List.cons.injEq,
          true_and]
        exact ih ys zs (fun q hq => hz q (List.mem_cons_of_mem _ hq))
          (by simpa using hb) (by simpa using hc)

/-- C5: `reparameterization(mean, std)` with `std` filled entirely with zeros
returns exactly `mean`, for every noise draw of the matching size. -/
theorem reparameterization_zero_std (mean std epsilon : Tensor)
    (hz : ∀ q ∈ std.data, q = 0)
    (hlen : std.data.length = mean.data.length)
    (helen : epsilon.data.length = std.data.length) :
    ConvVAE.reparameterization mean std epsilon = mean := by
  obtain ⟨ms, md⟩ := mean
  show Tensor.mk ms (List.zipWith (· + ·) md (List.zipWith (· * ·) std.data epsilon.data)) =
    Tensor.mk ms md
  rw [zipWith_add_zero_mul md std.data epsilon.data hz hlen helen]

/-- C5, witness. -/
theorem reparameterization_zero_std_witness :
    ConvVAE.reparameterization (Tensor.mk [1, 1, 1, 2] [3, 4])
      (Tensor.mk [1, 1, 1, 2] [0, 0]) (Tensor.mk [1, 1, 1, 2] [5, 7]) =
      Tensor.mk [1, 1, 1, 2] [3, 4] :=
  reparameterization_zero_std _ _ _ (by decide) rfl rfl

/-- C4: `forward(x)` returns exactly
`decode(mean + exp(0.5 * log_var) * noise)` where `(mean, log_var) = _encode(x)`
and `noise` is the standard-normal draw — the reconstruction and nothing else. -/
theorem forward_is_decode_reparam (M : ConvVAE) (x epsilon mean log_var : Tensor)
    (h : M._encode x = some (mean, log_var)) :
    M.forward x epsilon =
      some (M.decode (Tensor.add mean
        (Tensor.mul (Tensor.texp M.expS (Tensor.smul (1 / 2) log_var)) epsilon))) := by
  unfold ConvVAE.forward
  rw [h]
  rfl

/-- C4, witness. -/
theorem forward_is_decode_reparam_witness :
    idVAE._encode (Tensor.mk [1, 1, 1, 1] [2]) =
      some (Tensor.mk [1, 1, 1, 1] [2], Tensor.mk [1, 1, 1, 1] [2]) ∧
    idVAE.forward (Tensor.mk [1, 1, 1, 1] [2]) (Tensor.mk [1, 1, 1, 1] [3]) =
      some (idVAE.decode (Tensor.add (Tensor.mk [1, 1, 1, 1] [2])
        (Tensor.mul (Tensor.texp idVAE.expS (Tensor.smul (1 / 2) (Tensor.mk [1, 1, 1, 1] [2])))
          (Tensor.mk [1, 1, 1, 1] [3])))) :=
  ⟨by decide, forward_is_decode_reparam idVAE _ _ _ _ (by decide)⟩

/-- C8: the source sets `requires_grad = not unfreeze`, inverting the
documented contract: `freeze(unfreeze=False)` leaves every encoder, decoder
and (for the VAE) projection-layer parameter with gradient tracking enabled,
and `freeze(unfreeze=True)` disables them all; idempotence does hold.  This
evaluates the code at the failing input `unfreeze = False`. -/
theorem freeze_requires_grad_inverted (a : AEGrads) (p : VAEGrads) (u : Bool) :
    ((AE.freeze false a).encoder ++ (AE.freeze false a).decoder).all id = true ∧
    ((AE.freeze true a).encoder ++ (AE.freeze true a).decoder).all (fun b => !b) = true ∧
    AE.freeze u (AE.freeze u a) = AE.freeze u a ∧
    ((ConvVAE.freeze false p).encoder ++ (ConvVAE.freeze false p).decoder ++
        (ConvVAE.freeze false p).mean_layer ++ (ConvVAE.freeze false p).var_layer).all
      id = true ∧
    ((ConvVAE.freeze true p).encoder ++ (ConvVAE.freeze true p).decoder ++
        (ConvVAE.freeze true p).mean_layer ++ (ConvVAE.freeze true p).var_layer).all
      (fun b => !b) = true ∧
    ConvVAE.freeze u (ConvVAE.freeze u p) = ConvVAE.freeze u p := by
  refine ⟨?_, ?_, ?_, ?_, ?_, ?_⟩ <;>
    simp [AE.freeze, ConvVAE.freeze, ConvAE.freeze, List.all_eq_true, List.map_map,
      Function.comp]
